import Mathlib

/-!
Verification of the SLS Memory SDK client layer.

The development shallowly embeds the client code of the repository:
Python runtime values that can flow into the message-normalization entry
point are modelled by the inductive type PyVal; each client method is
modelled as a pure Lean function that either returns the backend call it
would issue (project, memory store, request object) or the error it raises
before any backend call; the create-store provisioning flow is modelled as
a function over a backend oracle that also records the trace of backend
calls it performs.
-/

namespace SlsMemory

/-- A Python runtime value, covering the shapes relevant to the client:
strings, dicts with string keys, lists, tuples, ints, bools and None. -/
inductive PyVal where
  | pstr : String → PyVal
  | pdict : List (String × PyVal) → PyVal
  | plist : List PyVal → PyVal
  | ptuple : List PyVal → PyVal
  | pint : Int → PyVal
  | pbool : Bool → PyVal
  | pnone : PyVal

/-- The Python type name of a value, as produced by type(x).__name__ . -/
def PyVal.typeName : PyVal → String
  | .pstr _ => "str"
  | .pdict _ => "dict"
  | .plist _ => "list"
  | .ptuple _ => "tuple"
  | .pint _ => "int"
  | .pbool _ => "bool"
  | .pnone => "NoneType"

/-- Whether the value is a Python str. -/
def PyVal.isStr : PyVal → Bool
  | .pstr _ => true
  | _ => false

/-- Whether the value is a Python dict (a mapping). -/
def PyVal.isDict : PyVal → Bool
  | .pdict _ => true
  | _ => false

/-- Whether the value is a Python list. -/
def PyVal.isList : PyVal → Bool
  | .plist _ => true
  | _ => false

/-- Whether the value is a sequence (list or tuple) whose elements are all
mappings. -/
def PyVal.isSeqOfMappings : PyVal → Bool
  | .plist l => l.all PyVal.isDict
  | .ptuple l => l.all PyVal.isDict
  | _ => false

/-- Python d.get(key, dflt): the value stored under the key, or the default
when the key is absent. -/
def dictGet (kvs : List (String × PyVal)) (key : String) (dflt : PyVal) : PyVal :=
  match kvs.find? (fun kv => kv.1 == key) with
  | some kv => kv.2
  | none => dflt

/-- An error raised by the client layer or propagated from the backend.
validationError models sls_memory.exceptions.ValidationError; attributeError
models Python AttributeError (it carries the type name of the offending
object); backendError models an exception raised by the SLS backend client,
carrying its str() rendering. -/
inductive PyErr where
  | validationError : String → PyErr
  | attributeError : String → PyErr
  | backendError : String → PyErr

/-- The str() rendering of an error, as inspected by the provisioning flow. -/
def PyErr.toStr : PyErr → String
  | .validationError m => m
  | .attributeError t => t
  | .backendError m => m

/-- Whether an Except outcome is a raised ValidationError. -/
def isValidationFailure {α : Type} : Except PyErr α → Bool
  | .error (.validationError _) => true
  | _ => false

/-- The sls_models.AddMemoriesRequestMessages object: role and content are
stored exactly as produced by msg.get, so they are arbitrary Python values. -/
structure AddMessage where
  role : PyVal
  content : PyVal

/-- The body of the normalization loop: msg.get with defaults when msg is a
dict, and AttributeError (no attribute get) otherwise. -/
def convertMessage : PyVal → Except PyErr AddMessage
  | .pdict kvs =>
      .ok { role := dictGet kvs "role" (.pstr "user")
            content := dictGet kvs "content" (.pstr "") }
  | v => .error (.attributeError v.typeName)

/-- The normalization loop over the element list, stopping at the first
element that raises. -/
def convertAll : List PyVal → Except PyErr (List AddMessage)
  | [] => .ok []
  | m :: rest => do
      let msg ← convertMessage m
      let msgs ← convertAll rest
      pure (msg :: msgs)

/-- The canonical message a dict element is normalized to: role defaults to
the string user, content defaults to the empty string. -/
def msgOfDict (kvs : List (String × PyVal)) : AddMessage :=
  { role := dictGet kvs "role" (.pstr "user")
    content := dictGet kvs "content" (.pstr "") }

/-- Truthiness of an optional Python string: None and the empty string are
falsy (this is the test performed by the if not x validations). -/
def strFalsy : Option String → Bool
  | none => true
  | some s => s.isEmpty

/-- The immutable client state: the (project, memory store) binding fixed at
construction. The opaque connection handle carries no local state and is
omitted. -/
structure Client where
  project : String
  memory_store : String

/-- An opaque SLS response-body object as seen by the result flattener:
either it exposes a to_map capability (every SLS model object does), or it
is a plain mapping-like object coerced with dict(). -/
inductive SLSObj where
  | withToMap : List (String × PyVal) → SLSObj
  | plainDict : List (String × PyVal) → SLSObj

/-- Python truthiness of a response-body object: model instances are always
truthy; a plain mapping is truthy iff non-empty. -/
def SLSObj.truthy : SLSObj → Bool
  | .withToMap _ => true
  | .plainDict kvs => !kvs.isEmpty

/-- A response body that carries an optional results list, as returned by
get_memories and search_memories. -/
structure ResultsBody where
  results : Option (List SLSObj)

/-- A successful backend response for operations that surface only the
status code and headers. -/
structure StatusResp where
  status_code : Int
  headers : List (String × String)

/-- The sls_models.AddMemoriesRequest object. The sync facade never sets
custom_instructions, so the field keeps the model default None there. -/
structure AddMemoriesRequest where
  messages : List AddMessage
  user_id : Option String
  agent_id : Option String
  app_id : Option String
  run_id : Option String
  metadata : Option (List (String × PyVal))
  infer : Bool
  custom_instructions : Option String
  async_mode : Bool

/-- The sls_models.GetMemoriesRequest object. -/
structure GetMemoriesRequest where
  user_id : Option String
  agent_id : Option String
  app_id : Option String
  run_id : Option String
  limit : Option Int

/-- The sls_models.SearchMemoriesRequest object. -/
structure SearchMemoriesRequest where
  query : Option String
  user_id : Option String
  agent_id : Option String
  app_id : Option String
  run_id : Option String
  top_k : Option Int
  rerank : Bool

/-- The sls_models.UpdateMemoryRequest object. -/
structure UpdateMemoryRequest where
  text : Option String
  metadata : Option (List (String × PyVal))

/-- The sls_models.DeleteMemoriesRequest object. -/
structure DeleteMemoriesRequest where
  user_id : Option String
  agent_id : Option String
  app_id : Option String
  run_id : Option String

/-- The sls_models.CreateMemoryStoreRequest object. -/
structure CreateMemoryStoreRequest where
  name : String
  description : Option String
  custom_instructions : Option String
  enable_graph : Bool
  strategy : String
  short_term_ttl : Int

/-- The sls_models.CreateProjectRequest object. -/
structure CreateProjectRequest where
  project_name : String
  description : String

/-- The add_memories backend call a client issues: positional project and
memory store plus the request object. -/
structure AddCall where
  project : String
  memory_store : String
  request : AddMemoriesRequest

/-- The get_memory backend call. -/
structure GetCall where
  project : String
  memory_store : String
  memory_id : Option String

/-- The get_memories backend call. -/
structure GetAllCall where
  project : String
  memory_store : String
  request : GetMemoriesRequest

/-- The search_memories backend call. -/
structure SearchCall where
  project : String
  memory_store : String
  request : SearchMemoriesRequest

/-- The update_memory backend call. -/
structure UpdateCall where
  project : String
  memory_store : String
  memory_id : Option String
  request : UpdateMemoryRequest

/-- The delete_memory backend call. -/
structure DeleteCall where
  project : String
  memory_store : String
  memory_id : Option String

/-- The delete_memories backend call. -/
structure DeleteAllCall where
  project : String
  memory_store : String
  request : DeleteMemoriesRequest

/-- The get_memory_history backend call. -/
structure HistoryCall where
  project : String
  memory_store : String
  memory_id : Option String

/-- A backend call recorded by the provisioning flow. -/
inductive ProvisionEvent where
  | createMemoryStore : String → CreateMemoryStoreRequest → ProvisionEvent
  | createProject : CreateProjectRequest → ProvisionEvent

/-- The backend oracle for the provisioning flow: the outcome of the first
create_memory_store attempt, of create_project, and of the retried
create_memory_store attempt. -/
structure Backend where
  createStoreFirst : Except PyErr StatusResp
  createProjectRes : Except PyErr StatusResp
  createStoreSecond : Except PyErr StatusResp

/-- Whether the first list occurs at the head of the second. -/
def leadsList : List Char → List Char → Bool
  | [], _ => true
  | _ :: _, [] => false
  | a :: as, b :: bs => a == b && leadsList as bs

/-- Whether the first list occurs contiguously anywhere in the second. -/
def occursIn (pat : List Char) : List Char → Bool
  | [] => pat.isEmpty
  | c :: cs => leadsList pat (c :: cs) || occursIn pat cs

/-- Python substring membership: pat in s. -/
def strContains (s pat : String) : Bool := occursIn pat.toList s.toList

end SlsMemory

namespace SlsMemory.SLSMemoryClient

open SlsMemory

/-- SLSMemoryClient.__init__: validates that project and memory_store are
non-empty, then stores them on the client. -/
def mk (project memory_store : String) : Except PyErr Client :=
  if project.isEmpty then .error (.validationError "project is required")
  else if memory_store.isEmpty then .error (.validationError "memory_store is required")
  else .ok { project := project, memory_store := memory_store }

/-- SLSMemoryClient._prepare_messages: a string becomes a single user
message, a dict is wrapped as a one-element list, a list is processed
element-wise, and any other top-level type raises ValidationError naming
the type. -/
def prepare_messages (messages : PyVal) : Except PyErr (List AddMessage) :=
  match messages with
  | .pstr s =>
      convertAll [PyVal.pdict [("role", .pstr "user"), ("content", .pstr s)]]
  | .pdict kvs => convertAll [PyVal.pdict kvs]
  | .plist l => convertAll l
  | v =>
      .error (.validationError
        ("messages must be str, dict, or list[dict], got " ++ v.typeName))

/-- SLSMemoryClient._convert_memory_result: use to_map when available,
otherwise coerce a truthy mapping-like value, otherwise the empty mapping. -/
def convert_memory_result : Option SLSObj → List (String × PyVal)
  | some (.withToMap m) => m
  | some (.plainDict kvs) => if kvs.isEmpty then [] else kvs
  | none => []

/-- SLSMemoryClient._convert_results_list: per-element flattening of a
truthy list, and the empty list for a falsy one. -/
def convert_results_list : Option (List SLSObj) → List (List (String × PyVal))
  | some rs =>
      if rs.isEmpty then []
      else rs.map (fun r => convert_memory_result (some r))
  | none => []

/-- SLSMemoryClient.add, request side: normalize the messages and build the
add_memories call. A normalization failure raises before the backend call.
The sync facade has no custom_instructions parameter, so the request keeps
the model default None for that field. -/
def add_call (c : Client) (messages : PyVal)
    (user_id agent_id app_id run_id : Option String)
    (metadata : Option (List (String × PyVal)))
    (doInfer async_mode : Bool) : Except PyErr AddCall := do
  let sls_messages ← prepare_messages messages
  pure
    { project := c.project
      memory_store := c.memory_store
      request :=
        { messages := sls_messages
          user_id := user_id
          agent_id := agent_id
          app_id := app_id
          run_id := run_id
          metadata := metadata
          infer := doInfer
          custom_instructions := none
          async_mode := async_mode } }

/-- SLSMemoryClient.add, response side: a truthy body is flattened, and an
absent body yields a dict with an empty results list. -/
def add_flatten (body : Option SLSObj) : PyVal :=
  match body with
  | some b =>
      if b.truthy then .pdict (convert_memory_result (some b))
      else .pdict [("results", .plist [])]
  | none => .pdict [("results", .plist [])]

/-- SLSMemoryClient.get, request side: validates memory_id then builds the
get_memory call. -/
def get_call (c : Client) (memory_id : Option String) : Except PyErr GetCall :=
  if strFalsy memory_id then .error (.validationError "memory_id is required")
  else .ok { project := c.project, memory_store := c.memory_store, memory_id := memory_id }

/-- SLSMemoryClient.get, response side: a truthy body is flattened, an
absent body yields the empty dict. -/
def get_flatten (body : Option SLSObj) : PyVal :=
  match body with
  | some b => if b.truthy then .pdict (convert_memory_result (some b)) else .pdict []
  | none => .pdict []

/-- SLSMemoryClient.get_all, request side: no validation, builds the
get_memories call from the given optional filters. -/
def get_all_call (c : Client) (user_id agent_id app_id run_id : Option String)
    (limit : Option Int) : Except PyErr GetAllCall :=
  .ok
    { project := c.project
      memory_store := c.memory_store
      request :=
        { user_id := user_id, agent_id := agent_id, app_id := app_id
          run_id := run_id, limit := limit } }

/-- SLSMemoryClient.get_all, response side: starts from a dict with an empty
results list and fills it only when both the body and its results field are
truthy. -/
def get_all_flatten (body : Option ResultsBody) : PyVal :=
  match body with
  | some b =>
      match b.results with
      | some rs =>
          if rs.isEmpty then .pdict [("results", .plist [])]
          else .pdict [("results", .plist ((convert_results_list (some rs)).map .pdict))]
      | none => .pdict [("results", .plist [])]
  | none => .pdict [("results", .plist [])]

/-- SLSMemoryClient.search, request side: validates that the query is
non-empty, then builds the search_memories call. -/
def search_call (c : Client) (query : Option String)
    (user_id agent_id app_id run_id : Option String)
    (top_k : Option Int) (rerank : Bool) : Except PyErr SearchCall :=
  if strFalsy query then .error (.validationError "query is required")
  else .ok
    { project := c.project
      memory_store := c.memory_store
      request :=
        { query := query, user_id := user_id, agent_id := agent_id
          app_id := app_id, run_id := run_id, top_k := top_k, rerank := rerank } }

/-- SLSMemoryClient.search, response side: identical shaping to get_all. -/
def search_flatten (body : Option ResultsBody) : PyVal :=
  match body with
  | some b =>
      match b.results with
      | some rs =>
          if rs.isEmpty then .pdict [("results", .plist [])]
          else .pdict [("results", .plist ((convert_results_list (some rs)).map .pdict))]
      | none => .pdict [("results", .plist [])]
  | none => .pdict [("results", .plist [])]

/-- SLSMemoryClient.update, request side: validates memory_id, then that at
least one of text and metadata is not None, then builds the update_memory
call. -/
def update_call (c : Client) (memory_id : Option String)
    (text : Option String) (metadata : Option (List (String × PyVal))) :
    Except PyErr UpdateCall :=
  if strFalsy memory_id then .error (.validationError "memory_id is required")
  else if text.isNone && metadata.isNone then
    .error (.validationError "Either text or metadata must be provided for update.")
  else .ok
    { project := c.project
      memory_store := c.memory_store
      memory_id := memory_id
      request := { text := text, metadata := metadata } }

/-- SLSMemoryClient.delete, request side: validates memory_id then builds
the delete_memory call. -/
def delete_call (c : Client) (memory_id : Option String) : Except PyErr DeleteCall :=
  if strFalsy memory_id then .error (.validationError "memory_id is required")
  else .ok { project := c.project, memory_store := c.memory_store, memory_id := memory_id }

/-- SLSMemoryClient.delete_all, request side: no validation at all, the
delete_memories call is always issued with the given optional filters. -/
def delete_all_call (c : Client) (user_id agent_id app_id run_id : Option String) :
    Except PyErr DeleteAllCall :=
  .ok
    { project := c.project
      memory_store := c.memory_store
      request :=
        { user_id := user_id, agent_id := agent_id
          app_id := app_id, run_id := run_id } }

/-- SLSMemoryClient.history, request side: validates memory_id then builds
the get_memory_history call. -/
def history_call (c : Client) (memory_id : Option String) : Except PyErr HistoryCall :=
  if strFalsy memory_id then .error (.validationError "memory_id is required")
  else .ok { project := c.project, memory_store := c.memory_store, memory_id := memory_id }

/-- SLSMemoryClient.history, response side: a truthy body list is flattened
per element; an absent or empty body yields the empty list. -/
def history_flatten (body : Option (List SLSObj)) : PyVal :=
  match body with
  | some rs =>
      if rs.isEmpty then .plist []
      else .plist ((convert_results_list (some rs)).map .pdict)
  | none => .plist []

/-- SLSMemoryClient.describe_memory_store, response side: same shaping as
get. -/
def describe_memory_store_flatten (body : Option SLSObj) : PyVal :=
  match body with
  | some b => if b.truthy then .pdict (convert_memory_result (some b)) else .pdict []
  | none => .pdict []

/-- SLSMemoryClient.create_memory_store: build the request from the store
configuration, attempt the backend create call; on an error whose str()
contains ProjectNotExist, create the project with the fixed auto-generated
description and retry once; any other error, a project-creation error, or a
retry error propagates unmodified. Returns the outcome together with the
trace of backend calls performed. -/
def create_memory_store (b : Backend) (c : Client)
    (description custom_instructions : Option String)
    (enable_graph : Bool) (strategy : String) (short_term_ttl : Int) :
    Except PyErr StatusResp × List ProvisionEvent :=
  let request : CreateMemoryStoreRequest :=
    { name := c.memory_store
      description := description
      custom_instructions := custom_instructions
      enable_graph := enable_graph
      strategy := strategy
      short_term_ttl := short_term_ttl }
  match b.createStoreFirst with
  | .ok resp => (.ok resp, [.createMemoryStore c.project request])
  | .error e =>
    if !strContains e.toStr "ProjectNotExist" then
      (.error e, [.createMemoryStore c.project request])
    else
      let projReq : CreateProjectRequest :=
        { project_name := c.project
          description := "Auto-created by SLS Memory SDK" }
      match b.createProjectRes with
      | .error e2 =>
          (.error e2, [.createMemoryStore c.project request, .createProject projReq])
      | .ok _ =>
          match b.createStoreSecond with
          | .ok resp =>
              (.ok resp,
                [.createMemoryStore c.project request, .createProject projReq,
                 .createMemoryStore c.project request])
          | .error e3 =>
              (.error e3,
                [.createMemoryStore c.project request, .createProject projReq,
                 .createMemoryStore c.project request])

end SlsMemory.SLSMemoryClient

namespace SlsMemory.AsyncSLSMemoryClient

open SlsMemory

/-- AsyncSLSMemoryClient.__init__: identical validation to the sync client. -/
def mk (project memory_store : String) : Except PyErr Client :=
  if project.isEmpty then .error (.validationError "project is required")
  else if memory_store.isEmpty then .error (.validationError "memory_store is required")
  else .ok { project := project, memory_store := memory_store }

/-- AsyncSLSMemoryClient._prepare_messages: textually identical to the
sync version. -/
def prepare_messages (messages : PyVal) : Except PyErr (List AddMessage) :=
  match messages with
  | .pstr s =>
      convertAll [PyVal.pdict [("role", .pstr "user"), ("content", .pstr s)]]
  | .pdict kvs => convertAll [PyVal.pdict kvs]
  | .plist l => convertAll l
  | v =>
      .error (.validationError
        ("messages must be str, dict, or list[dict], got " ++ v.typeName))

/-- AsyncSLSMemoryClient._convert_memory_result: textually identical to the
sync version. -/
def convert_memory_result : Option SLSObj → List (String × PyVal)
  | some (.withToMap m) => m
  | some (.plainDict kvs) => if kvs.isEmpty then [] else kvs
  | none => []

/-- AsyncSLSMemoryClient._convert_results_list: textually identical to the
sync version. -/
def convert_results_list : Option (List SLSObj) → List (List (String × PyVal))
  | some rs =>
      if rs.isEmpty then []
      else rs.map (fun r => convert_memory_result (some r))
  | none => []

/-- AsyncSLSMemoryClient.add, request side: identical to the sync version
except for the extra custom_instructions parameter, which the async facade
accepts and forwards into the request. -/
def add_call (c : Client) (messages : PyVal)
    (user_id agent_id app_id run_id : Option String)
    (metadata : Option (List (String × PyVal)))
    (doInfer : Bool) (custom_instructions : Option String)
    (async_mode : Bool) : Except PyErr AddCall := do
  let sls_messages ← prepare_messages messages
  pure
    { project := c.project
      memory_store := c.memory_store
      request :=
        { messages := sls_messages
          user_id := user_id
          agent_id := agent_id
          app_id := app_id
          run_id := run_id
          metadata := metadata
          infer := doInfer
          custom_instructions := custom_instructions
          async_mode := async_mode } }

/-- AsyncSLSMemoryClient.add, response side. -/
def add_flatten (body : Option SLSObj) : PyVal :=
  match body with
  | some b =>
      if b.truthy then .pdict (convert_memory_result (some b))
      else .pdict [("results", .plist [])]
  | none => .pdict [("results", .plist [])]

/-- AsyncSLSMemoryClient.get, request side. -/
def get_call (c : Client) (memory_id : Option String) : Except PyErr GetCall :=
  if strFalsy memory_id then .error (.validationError "memory_id is required")
  else .ok { project := c.project, memory_store := c.memory_store, memory_id := memory_id }

/-- AsyncSLSMemoryClient.get, response side. -/
def get_flatten (body : Option SLSObj) : PyVal :=
  match body with
  | some b => if b.truthy then .pdict (convert_memory_result (some b)) else .pdict []
  | none => .pdict []

/-- AsyncSLSMemoryClient.get_all, request side. -/
def get_all_call (c : Client) (user_id agent_id app_id run_id : Option String)
    (limit : Option Int) : Except PyErr GetAllCall :=
  .ok
    { project := c.project
      memory_store := c.memory_store
      request :=
        { user_id := user_id, agent_id := agent_id, app_id := app_id
          run_id := run_id, limit := limit } }

/-- AsyncSLSMemoryClient.get_all, response side. -/
def get_all_flatten (body : Option ResultsBody) : PyVal :=
  match body with
  | some b =>
      match b.results with
      | some rs =>
          if rs.isEmpty then .pdict [("results", .plist [])]
          else .pdict [("results", .plist ((convert_results_list (some rs)).map .pdict))]
      | none => .pdict [("results", .plist [])]
  | none => .pdict [("results", .plist [])]

/-- AsyncSLSMemoryClient.search, request side. -/
def search_call (c : Client) (query : Option String)
    (user_id agent_id app_id run_id : Option String)
    (top_k : Option Int) (rerank : Bool) : Except PyErr SearchCall :=
  if strFalsy query then .error (.validationError "query is required")
  else .ok
    { project := c.project
      memory_store := c.memory_store
      request :=
        { query := query, user_id := user_id, agent_id := agent_id
          app_id := app_id, run_id := run_id, top_k := top_k, rerank := rerank } }

/-- AsyncSLSMemoryClient.search, response side. -/
def search_flatten (body : Option ResultsBody) : PyVal :=
  match body with
  | some b =>
      match b.results with
      | some rs =>
          if rs.isEmpty then .pdict [("results", .plist [])]
          else .pdict [("results", .plist ((convert_results_list (some rs)).map .pdict))]
      | none => .pdict [("results", .plist [])]
  | none => .pdict [("results", .plist [])]

/-- AsyncSLSMemoryClient.update, request side. -/
def update_call (c : Client) (memory_id : Option String)
    (text : Option String) (metadata : Option (List (String × PyVal))) :
    Except PyErr UpdateCall :=
  if strFalsy memory_id then .error (.validationError "memory_id is required")
  else if text.isNone && metadata.isNone then
    .error (.validationError "Either text or metadata must be provided for update.")
  else .ok
    { project := c.project
      memory_store := c.memory_store
      memory_id := memory_id
      request := { text := text, metadata := metadata } }

/-- AsyncSLSMemoryClient.delete, request side. -/
def delete_call (c : Client) (memory_id : Option String) : Except PyErr DeleteCall :=
  if strFalsy memory_id then .error (.validationError "memory_id is required")
  else .ok { project := c.project, memory_store := c.memory_store, memory_id := memory_id }

/-- AsyncSLSMemoryClient.delete_all, request side: no validation at all. -/
def delete_all_call (c : Client) (user_id agent_id app_id run_id : Option String) :
    Except PyErr DeleteAllCall :=
  .ok
    { project := c.project
      memory_store := c.memory_store
      request :=
        { user_id := user_id, agent_id := agent_id
          app_id := app_id, run_id := run_id } }

/-- AsyncSLSMemoryClient.history, request side. -/
def history_call (c : Client) (memory_id : Option String) : Except PyErr HistoryCall :=
  if strFalsy memory_id then .error (.validationError "memory_id is required")
  else .ok { project := c.project, memory_store := c.memory_store, memory_id := memory_id }

/-- AsyncSLSMemoryClient.history, response side. -/
def history_flatten (body : Option (List SLSObj)) : PyVal :=
  match body with
  | some rs =>
      if rs.isEmpty then .plist []
      else .plist ((convert_results_list (some rs)).map .pdict)
  | none => .plist []

/-- AsyncSLSMemoryClient.describe_memory_store, response side. -/
def describe_memory_store_flatten (body : Option SLSObj) : PyVal :=
  match body with
  | some b => if b.truthy then .pdict (convert_memory_result (some b)) else .pdict []
  | none => .pdict []

/-- AsyncSLSMemoryClient.create_memory_store: textually identical to the
sync version, with the awaited backend call variants. -/
def create_memory_store (b : Backend) (c : Client)
    (description custom_instructions : Option String)
    (enable_graph : Bool) (strategy : String) (short_term_ttl : Int) :
    Except PyErr StatusResp × List ProvisionEvent :=
  let request : CreateMemoryStoreRequest :=
    { name := c.memory_store
      description := description
      custom_instructions := custom_instructions
      enable_graph := enable_graph
      strategy := strategy
      short_term_ttl := short_term_ttl }
  match b.createStoreFirst with
  | .ok resp => (.ok resp, [.createMemoryStore c.project request])
  | .error e =>
    if !strContains e.toStr "ProjectNotExist" then
      (.error e, [.createMemoryStore c.project request])
    else
      let projReq : CreateProjectRequest :=
        { project_name := c.project
          description := "Auto-created by SLS Memory SDK" }
      match b.createProjectRes with
      | .error e2 =>
          (.error e2, [.createMemoryStore c.project request, .createProject projReq])
      | .ok _ =>
          match b.createStoreSecond with
          | .ok resp =>
              (.ok resp,
                [.createMemoryStore c.project request, .createProject projReq,
                 .createMemoryStore c.project request])
          | .error e3 =>
              (.error e3,
                [.createMemoryStore c.project request, .createProject projReq,
                 .createMemoryStore c.project request])

end SlsMemory.AsyncSLSMemoryClient

namespace SlsMemory

/-- The CreateMemoryStoreRequest a client builds from a store
configuration: the name is the bound memory store. -/
def storeRequest (c : Client) (description custom_instructions : Option String)
    (enable_graph : Bool) (strategy : String) (short_term_ttl : Int) :
    CreateMemoryStoreRequest :=
  { name := c.memory_store
    description := description
    custom_instructions := custom_instructions
    enable_graph := enable_graph
    strategy := strategy
    short_term_ttl := short_term_ttl }

/-- The CreateProjectRequest built by the provisioning fallback. -/
def autoProjectRequest (c : Client) : CreateProjectRequest :=
  { project_name := c.project
    description := "Auto-created by SLS Memory SDK" }

theorem convertAll_map_pdict (ds : List (List (String × PyVal))) :
    convertAll (ds.map PyVal.pdict) = .ok (ds.map msgOfDict) := by
  induction ds with
  | nil => rfl
  | cons d rest ih =>
    simp only [List.map_cons, convertAll, convertMessage, ih]
    rfl

theorem convertAll_shape (l : List PyVal) :
    (∃ msgs, convertAll l = .ok msgs) ∨
      (∃ t, convertAll l = .error (.attributeError t)) := by
  induction l with
  | nil => exact .inl ⟨[], rfl⟩
  | cons m rest ih =>
    cases m with
    | pdict kvs =>
      rcases ih with ⟨msgs, h⟩ | ⟨t, h⟩
      · exact .inl ⟨msgOfDict kvs :: msgs, by
          simp only [convertAll, convertMessage, h]; rfl⟩
      · exact .inr ⟨t, by
          simp only [convertAll, convertMessage, h]; rfl⟩
    | pstr s => exact .inr ⟨"str", rfl⟩
    | plist l2 => exact .inr ⟨"list", rfl⟩
    | ptuple l2 => exact .inr ⟨"tuple", rfl⟩
    | pint n => exact .inr ⟨"int", rfl⟩
    | pbool b => exact .inr ⟨"bool", rfl⟩
    | pnone => exact .inr ⟨"NoneType", rfl⟩

theorem convertAll_not_validation (l : List PyVal) :
    isValidationFailure (convertAll l) = false := by
  rcases convertAll_shape l with ⟨msgs, h⟩ | ⟨t, h⟩ <;> simp [h, isValidationFailure]

theorem convertAll_first_nondict (l : List PyVal) (h : l.all PyVal.isDict = false) :
    ∃ t, convertAll l = .error (.attributeError t) := by
  induction l with
  | nil => simp [List.all_nil] at h
  | cons m rest ih =>
    cases m with
    | pdict kvs =>
      simp only [List.all_cons, PyVal.isDict, Bool.true_and] at h
      rcases ih h with ⟨t, ht⟩
      exact ⟨t, by simp only [convertAll, convertMessage, ht]; rfl⟩
    | pstr s => exact ⟨"str", rfl⟩
    | plist l2 => exact ⟨"list", rfl⟩
    | ptuple l2 => exact ⟨"tuple", rfl⟩
    | pint n => exact ⟨"int", rfl⟩
    | pbool b => exact ⟨"bool", rfl⟩
    | pnone => exact ⟨"NoneType", rfl⟩

theorem prepare_messages_facades_eq (v : PyVal) :
    AsyncSLSMemoryClient.prepare_messages v = SLSMemoryClient.prepare_messages v := by
  cases v <;> rfl

/-- C2: normalizing a string yields exactly the one-element list with role
user and content the string; a single mapping is wrapped as a one-element
list; a list of mappings yields one message per element in the same order
with no deduplication or reordering, role defaulting to user and content
defaulting to the empty string when the respective key is absent. -/
theorem C2_message_normalization :
    (∀ s : String,
      SLSMemoryClient.prepare_messages (.pstr s) =
        .ok [{ role := .pstr "user", content := .pstr s }]) ∧
    (∀ kvs : List (String × PyVal),
      SLSMemoryClient.prepare_messages (.pdict kvs) = .ok [msgOfDict kvs]) ∧
    (∀ ds : List (List (String × PyVal)),
      SLSMemoryClient.prepare_messages (.plist (ds.map PyVal.pdict)) =
        .ok (ds.map msgOfDict)) ∧
    (∀ kvs : List (String × PyVal),
      kvs.find? (fun kv => kv.1 == "role") = none →
        (msgOfDict kvs).role = .pstr "user") ∧
    (∀ kvs : List (String × PyVal),
      kvs.find? (fun kv => kv.1 == "content") = none →
        (msgOfDict kvs).content = .pstr "") := by
  refine ⟨fun s => rfl, fun kvs => ?_, fun ds => ?_, fun kvs h => ?_, fun kvs h => ?_⟩
  · show convertAll [PyVal.pdict kvs] = .ok [msgOfDict kvs]
    simp only [convertAll, convertMessage]
    rfl
  · show convertAll (ds.map PyVal.pdict) = .ok (ds.map msgOfDict)
    exact convertAll_map_pdict ds
  · simp [msgOfDict, dictGet, h]
  · simp [msgOfDict, dictGet, h]

/-- C2 witness: the role of a message built from a mapping without a role
key is the string user. -/
theorem C2_message_normalization_witness :
    ([(("content" : String), PyVal.pstr "hi")].find? (fun kv => kv.1 == "role") = none) ∧
    (msgOfDict [("content", PyVal.pstr "hi")]).role = .pstr "user" :=
  ⟨rfl, C2_message_normalization.2.2.2.1 [("content", PyVal.pstr "hi")] rfl⟩

/-- C4: flattening an absent body yields an empty mapping for get and
describe_memory_store, an empty list for history, and a dict carrying an
empty results list for add, get_all and search; get_all and search also
yield the empty results list when the body is present but its results field
is absent, and none of these raises. -/
theorem C4_absent_body_flattening :
    SLSMemoryClient.get_flatten none = .pdict [] ∧
    SLSMemoryClient.describe_memory_store_flatten none = .pdict [] ∧
    SLSMemoryClient.history_flatten none = .plist [] ∧
    SLSMemoryClient.add_flatten none = .pdict [("results", .plist [])] ∧
    SLSMemoryClient.get_all_flatten none = .pdict [("results", .plist [])] ∧
    SLSMemoryClient.get_all_flatten (some { results := none }) =
      .pdict [("results", .plist [])] ∧
    SLSMemoryClient.search_flatten none = .pdict [("results", .plist [])] ∧
    SLSMemoryClient.search_flatten (some { results := none }) =
      .pdict [("results", .plist [])] ∧
    AsyncSLSMemoryClient.get_flatten none = .pdict [] ∧
    AsyncSLSMemoryClient.describe_memory_store_flatten none = .pdict [] ∧
    AsyncSLSMemoryClient.history_flatten none = .plist [] ∧
    AsyncSLSMemoryClient.add_flatten none = .pdict [("results", .plist [])] ∧
    AsyncSLSMemoryClient.get_all_flatten none = .pdict [("results", .plist [])] ∧
    AsyncSLSMemoryClient.get_all_flatten (some { results := none }) =
      .pdict [("results", .plist [])] ∧
    AsyncSLSMemoryClient.search_flatten none = .pdict [("results", .plist [])] ∧
    AsyncSLSMemoryClient.search_flatten (some { results := none }) =
      .pdict [("results", .plist [])] := by
  refine ⟨rfl, rfl, rfl, rfl, rfl, rfl, rfl, rfl, rfl, rfl, rfl, rfl, rfl, rfl, rfl, rfl⟩

/-- C6 counterexample: the list containing the integer zero is neither a
string, nor a mapping, nor a sequence of mappings, yet normalization fails
with an AttributeError, not a validation error. -/
theorem C6_counterexample :
    PyVal.isStr (.plist [.pint 0]) = false ∧
    PyVal.isDict (.plist [.pint 0]) = false ∧
    PyVal.isSeqOfMappings (.plist [.pint 0]) = false ∧
    SLSMemoryClient.prepare_messages (.plist [.pint 0]) =
      .error (.attributeError "int") ∧
    isValidationFailure (SLSMemoryClient.prepare_messages (.plist [.pint 0])) = false :=
  ⟨rfl, rfl, rfl, rfl, rfl⟩

/-- C6 amended: for every messages argument whose top-level type is neither
str, nor dict, nor list, normalization (in both facades) fails with a
validation error naming the unsupported type, and the add pipeline issues
no backend call. -/
theorem C6_amended_toplevel_type_validation (v : PyVal)
    (h1 : v.isStr = false) (h2 : v.isDict = false) (h3 : v.isList = false) :
    SLSMemoryClient.prepare_messages v =
      .error (.validationError
        ("messages must be str, dict, or list[dict], got " ++ v.typeName)) ∧
    AsyncSLSMemoryClient.prepare_messages v =
      .error (.validationError
        ("messages must be str, dict, or list[dict], got " ++ v.typeName)) ∧
    (∀ (c : Client) (u a ap r : Option String)
        (md : Option (List (String × PyVal))) (doInfer am : Bool),
      SLSMemoryClient.add_call c v u a ap r md doInfer am =
        .error (.validationError
          ("messages must be str, dict, or list[dict], got " ++ v.typeName))) := by
  cases v with
  | pstr s => simp [PyVal.isStr] at h1
  | pdict kvs => simp [PyVal.isDict] at h2
  | plist l => simp [PyVal.isList] at h3
  | ptuple l => exact ⟨rfl, rfl, fun c u a ap r md doInfer am => rfl⟩
  | pint n => exact ⟨rfl, rfl, fun c u a ap r md doInfer am => rfl⟩
  | pbool b => exact ⟨rfl, rfl, fun c u a ap r md doInfer am => rfl⟩
  | pnone => exact ⟨rfl, rfl, fun c u a ap r md doInfer am => rfl⟩

/-- C6 amended witness: evaluated at the integer seven. -/
theorem C6_amended_toplevel_type_validation_witness :
    PyVal.isStr (.pint 7) = false ∧
    SLSMemoryClient.prepare_messages (.pint 7) =
      .error (.validationError "messages must be str, dict, or list[dict], got int") :=
  ⟨rfl, (C6_amended_toplevel_type_validation (.pint 7) rfl rfl rfl).1⟩

/-- C9: normalization raises a validation error exactly when the top-level
argument is not a string, mapping or list; elements of a list are never
type-checked, so a list containing a non-mapping fails with an
AttributeError instead, and no list input ever produces a validation
error. Both facades behave identically. -/
theorem C9_element_types_unchecked :
    (∀ v : PyVal,
      isValidationFailure (SLSMemoryClient.prepare_messages v) = true ↔
        (v.isStr = false ∧ v.isDict = false ∧ v.isList = false)) ∧
    (∀ l : List PyVal, l.all PyVal.isDict = false →
      ∃ t, SLSMemoryClient.prepare_messages (.plist l) =
        .error (.attributeError t)) ∧
    (∀ l : List PyVal,
      isValidationFailure (SLSMemoryClient.prepare_messages (.plist l)) = false) ∧
    (∀ v : PyVal,
      isValidationFailure (AsyncSLSMemoryClient.prepare_messages v) =
        isValidationFailure (SLSMemoryClient.prepare_messages v)) := by
  have hlist : ∀ l : List PyVal,
      isValidationFailure (SLSMemoryClient.prepare_messages (.plist l)) = false := by
    intro l
    show isValidationFailure (convertAll l) = false
    exact convertAll_not_validation l
  refine ⟨fun v => ?_, fun l h => ?_, hlist, fun v => ?_⟩
  · cases v with
    | pstr s =>
      simp only [PyVal.isStr]
      constructor
      · intro h
        rcases convertAll_shape
            [PyVal.pdict [("role", .pstr "user"), ("content", .pstr s)]] with
          ⟨msgs, hs⟩ | ⟨t, hs⟩ <;>
          · exfalso
            revert h
            show isValidationFailure (convertAll _) = true → False
            simp [hs, isValidationFailure]
      · rintro ⟨h, -⟩
        exact absurd h (by simp)
    | pdict kvs =>
      simp only [PyVal.isDict]
      constructor
      · intro h
        rcases convertAll_shape [PyVal.pdict kvs] with ⟨msgs, hs⟩ | ⟨t, hs⟩ <;>
          · exfalso
            revert h
            show isValidationFailure (convertAll _) = true → False
            simp [hs, isValidationFailure]
      · rintro ⟨-, h, -⟩
        exact absurd h (by simp)
    | plist l =>
      rw [hlist l]
      simp [PyVal.isList]
    | ptuple l => simp [SLSMemoryClient.prepare_messages, isValidationFailure,
        PyVal.isStr, PyVal.isDict, PyVal.isList]
    | pint n => simp [SLSMemoryClient.prepare_messages, isValidationFailure,
        PyVal.isStr, PyVal.isDict, PyVal.isList]
    | pbool b => simp [SLSMemoryClient.prepare_messages, isValidationFailure,
        PyVal.isStr, PyVal.isDict, PyVal.isList]
    | pnone => simp [SLSMemoryClient.prepare_messages, isValidationFailure,
        PyVal.isStr, PyVal.isDict, PyVal.isList]
  · rcases convertAll_first_nondict l h with ⟨t, ht⟩
    exact ⟨t, ht⟩
  · rw [prepare_messages_facades_eq v]

/-- C9 witness: a list containing a bare string fails with an
AttributeError naming the element type. -/
theorem C9_element_types_unchecked_witness :
    ([PyVal.pstr "x"].all PyVal.isDict = false) ∧
    (∃ t, SLSMemoryClient.prepare_messages (.plist [.pstr "x"]) =
      .error (.attributeError t)) :=
  ⟨rfl, C9_element_types_unchecked.2.1 [.pstr "x"] rfl⟩

/-- C5: in both facades, get, update, delete and history with an empty or
None memory_id, search with an empty or None query, and update with both
text and metadata absent, all raise a validation error, so no backend call
descriptor is ever produced on these paths. -/
theorem C5_local_validation_before_backend :
    (∀ (c : Client) (mid : Option String), strFalsy mid = true →
      SLSMemoryClient.get_call c mid =
        .error (.validationError "memory_id is required") ∧
      SLSMemoryClient.delete_call c mid =
        .error (.validationError "memory_id is required") ∧
      SLSMemoryClient.history_call c mid =
        .error (.validationError "memory_id is required") ∧
      (∀ (t : Option String) (md : Option (List (String × PyVal))),
        SLSMemoryClient.update_call c mid t md =
          .error (.validationError "memory_id is required")) ∧
      AsyncSLSMemoryClient.get_call c mid =
        .error (.validationError "memory_id is required") ∧
      AsyncSLSMemoryClient.delete_call c mid =
        .error (.validationError "memory_id is required") ∧
      AsyncSLSMemoryClient.history_call c mid =
        .error (.validationError "memory_id is required") ∧
      (∀ (t : Option String) (md : Option (List (String × PyVal))),
        AsyncSLSMemoryClient.update_call c mid t md =
          .error (.validationError "memory_id is required"))) ∧
    (∀ (c : Client) (q : Option String) (u a ap r : Option String)
        (tk : Option Int) (rk : Bool), strFalsy q = true →
      SLSMemoryClient.search_call c q u a ap r tk rk =
        .error (.validationError "query is required") ∧
      AsyncSLSMemoryClient.search_call c q u a ap r tk rk =
        .error (.validationError "query is required")) ∧
    (∀ (c : Client) (mid : Option String), strFalsy mid = false →
      SLSMemoryClient.update_call c mid none none =
        .error (.validationError "Either text or metadata must be provided for update.") ∧
      AsyncSLSMemoryClient.update_call c mid none none =
        .error (.validationError "Either text or metadata must be provided for update.")) := by
  refine ⟨fun c mid h => ?_, fun c q u a ap r tk rk h => ?_, fun c mid h => ?_⟩
  · refine ⟨?_, ?_, ?_, fun t md => ?_, ?_, ?_, ?_, fun t md => ?_⟩ <;>
      simp [SLSMemoryClient.get_call, SLSMemoryClient.delete_call,
        SLSMemoryClient.history_call, SLSMemoryClient.update_call,
        AsyncSLSMemoryClient.get_call, AsyncSLSMemoryClient.delete_call,
        AsyncSLSMemoryClient.history_call, AsyncSLSMemoryClient.update_call, h]
  · constructor <;>
      simp [SLSMemoryClient.search_call, AsyncSLSMemoryClient.search_call, h]
  · constructor <;>
      simp [SLSMemoryClient.update_call, AsyncSLSMemoryClient.update_call, h]

/-- C5 witness: get with a None memory_id raises the validation error. -/
theorem C5_local_validation_before_backend_witness :
    strFalsy (none : Option String) = true ∧
    SLSMemoryClient.get_call { project := "p", memory_store := "s" } none =
      .error (.validationError "memory_id is required") :=
  ⟨rfl, (C5_local_validation_before_backend.1
    { project := "p", memory_store := "s" } none rfl).1⟩

/-- C7: construction of either facade raises a validation error when
project or memory_store is empty; a successfully constructed client stores
exactly the given non-empty strings; and operations read the stored binding
verbatim without ever re-validating it, so the fields can never change and
the check happens only at construction. -/
theorem C7_construction_invariant :
    (∀ p s : String, p.isEmpty = true →
      SLSMemoryClient.mk p s = .error (.validationError "project is required") ∧
      AsyncSLSMemoryClient.mk p s = .error (.validationError "project is required")) ∧
    (∀ p s : String, p.isEmpty = false → s.isEmpty = true →
      SLSMemoryClient.mk p s = .error (.validationError "memory_store is required") ∧
      AsyncSLSMemoryClient.mk p s = .error (.validationError "memory_store is required")) ∧
    (∀ (p s : String) (c : Client), SLSMemoryClient.mk p s = .ok c →
      c.project = p ∧ c.memory_store = s ∧
      c.project.isEmpty = false ∧ c.memory_store.isEmpty = false) ∧
    (∀ (p s : String) (c : Client), AsyncSLSMemoryClient.mk p s = .ok c →
      c.project = p ∧ c.memory_store = s ∧
      c.project.isEmpty = false ∧ c.memory_store.isEmpty = false) ∧
    (∀ (c : Client) (u a ap r : Option String),
      SLSMemoryClient.delete_all_call c u a ap r =
        .ok { project := c.project, memory_store := c.memory_store,
              request := { user_id := u, agent_id := a, app_id := ap, run_id := r } }) ∧
    (∀ (c : Client) (u a ap r : Option String) (lim : Option Int),
      SLSMemoryClient.get_all_call c u a ap r lim =
        .ok { project := c.project, memory_store := c.memory_store,
              request := { user_id := u, agent_id := a, app_id := ap,
                           run_id := r, limit := lim } }) ∧
    (∀ (c : Client) (mid : Option String), strFalsy mid = false →
      SLSMemoryClient.get_call c mid =
        .ok { project := c.project, memory_store := c.memory_store, memory_id := mid }) := by
  refine ⟨fun p s h => ?_, fun p s h1 h2 => ?_, fun p s c h => ?_, fun p s c h => ?_,
    fun _ _ _ _ _ => rfl, fun _ _ _ _ _ _ => rfl, fun c mid h => ?_⟩
  · constructor <;> simp [SLSMemoryClient.mk, AsyncSLSMemoryClient.mk, h]
  · constructor <;> simp [SLSMemoryClient.mk, AsyncSLSMemoryClient.mk, h1, h2]
  · revert h
    simp only [SLSMemoryClient.mk]
    split
    · intro h; cases h
    · split
      · intro h; cases h
      · intro h
        cases h
        simp_all
  · revert h
    simp only [AsyncSLSMemoryClient.mk]
    split
    · intro h; cases h
    · split
      · intro h; cases h
      · intro h
        cases h
        simp_all
  · simp [SLSMemoryClient.get_call, h]

/-- C7 witness: constructing with non-empty names succeeds and stores
them. -/
theorem C7_construction_invariant_witness :
    SLSMemoryClient.mk "p" "s" =
      .ok { project := "p", memory_store := "s" } ∧
    (Client.project { project := "p", memory_store := "s" } = "p" ∧
     Client.memory_store { project := "p", memory_store := "s" } = "s" ∧
     ("p" : String).isEmpty = false ∧ ("s" : String).isEmpty = false) :=
  ⟨rfl, C7_construction_invariant.2.2.1 "p" "s"
    { project := "p", memory_store := "s" } rfl⟩

/-- C8: for a non-empty memory_id, update with an empty-string text or an
empty metadata mapping passes local validation in both facades and produces
the backend call: the requirement is checked as both-are-None. -/
theorem C8_empty_values_count_as_provided (c : Client) (mid : Option String)
    (h : strFalsy mid = false) :
    SLSMemoryClient.update_call c mid (some "") none =
      .ok { project := c.project, memory_store := c.memory_store, memory_id := mid,
            request := { text := some "", metadata := none } } ∧
    SLSMemoryClient.update_call c mid none (some []) =
      .ok { project := c.project, memory_store := c.memory_store, memory_id := mid,
            request := { text := none, metadata := some [] } } ∧
    AsyncSLSMemoryClient.update_call c mid (some "") none =
      .ok { project := c.project, memory_store := c.memory_store, memory_id := mid,
            request := { text := some "", metadata := none } } ∧
    AsyncSLSMemoryClient.update_call c mid none (some []) =
      .ok { project := c.project, memory_store := c.memory_store, memory_id := mid,
            request := { text := none, metadata := some [] } } := by
  refine ⟨?_, ?_, ?_, ?_⟩ <;>
    simp [SLSMemoryClient.update_call, AsyncSLSMemoryClient.update_call, h]

/-- C8 witness: update of the memory m1 with an empty text passes
validation. -/
theorem C8_empty_values_count_as_provided_witness :
    strFalsy (some "m1") = false ∧
    SLSMemoryClient.update_call { project := "p", memory_store := "s" }
        (some "m1") (some "") none =
      .ok { project := "p", memory_store := "s", memory_id := some "m1",
            request := { text := some "", metadata := none } } :=
  ⟨rfl, (C8_empty_values_count_as_provided
    { project := "p", memory_store := "s" } (some "m1") rfl).1⟩

/-- C10: delete_all performs no local validation in either facade: for every
combination of the optional scoping identifiers, including all absent, it
issues the delete_memories call with exactly the given identifiers. -/
theorem C10_delete_all_no_validation :
    ∀ (c : Client) (u a ap r : Option String),
      SLSMemoryClient.delete_all_call c u a ap r =
        .ok { project := c.project, memory_store := c.memory_store,
              request := { user_id := u, agent_id := a, app_id := ap, run_id := r } } ∧
      AsyncSLSMemoryClient.delete_all_call c u a ap r =
        .ok { project := c.project, memory_store := c.memory_store,
              request := { user_id := u, agent_id := a, app_id := ap, run_id := r } } :=
  fun _ _ _ _ _ => ⟨rfl, rfl⟩

/-- C3: the two facades are behaviourally identical on every input accepted
by both: message normalization is pointwise equal, add builds the same
backend request from the same arguments (the async-only custom_instructions
left absent), every response flattener is pointwise equal, and construction,
validation and request building agree across all operations. -/
theorem C3_facade_equivalence :
    (∀ v : PyVal,
      AsyncSLSMemoryClient.prepare_messages v = SLSMemoryClient.prepare_messages v) ∧
    (∀ (c : Client) (v : PyVal) (u a ap r : Option String)
        (md : Option (List (String × PyVal))) (doInfer am : Bool),
      AsyncSLSMemoryClient.add_call c v u a ap r md doInfer none am =
        SLSMemoryClient.add_call c v u a ap r md doInfer am) ∧
    (∀ b : Option SLSObj,
      AsyncSLSMemoryClient.add_flatten b = SLSMemoryClient.add_flatten b) ∧
    (∀ b : Option SLSObj,
      AsyncSLSMemoryClient.get_flatten b = SLSMemoryClient.get_flatten b) ∧
    (∀ b : Option ResultsBody,
      AsyncSLSMemoryClient.get_all_flatten b = SLSMemoryClient.get_all_flatten b) ∧
    (∀ b : Option ResultsBody,
      AsyncSLSMemoryClient.search_flatten b = SLSMemoryClient.search_flatten b) ∧
    (∀ b : Option (List SLSObj),
      AsyncSLSMemoryClient.history_flatten b = SLSMemoryClient.history_flatten b) ∧
    (∀ b : Option SLSObj,
      AsyncSLSMemoryClient.describe_memory_store_flatten b =
        SLSMemoryClient.describe_memory_store_flatten b) ∧
    (∀ b : Option SLSObj,
      AsyncSLSMemoryClient.convert_memory_result b =
        SLSMemoryClient.convert_memory_result b) ∧
    (∀ p s : String, AsyncSLSMemoryClient.mk p s = SLSMemoryClient.mk p s) ∧
    (∀ (c : Client) (mid : Option String),
      AsyncSLSMemoryClient.get_call c mid = SLSMemoryClient.get_call c mid ∧
      AsyncSLSMemoryClient.delete_call c mid = SLSMemoryClient.delete_call c mid ∧
      AsyncSLSMemoryClient.history_call c mid = SLSMemoryClient.history_call c mid) ∧
    (∀ (c : Client) (mid t : Option String) (md : Option (List (String × PyVal))),
      AsyncSLSMemoryClient.update_call c mid t md = SLSMemoryClient.update_call c mid t md) ∧
    (∀ (c : Client) (q u a ap r : Option String) (tk : Option Int) (rk : Bool),
      AsyncSLSMemoryClient.search_call c q u a ap r tk rk =
        SLSMemoryClient.search_call c q u a ap r tk rk) ∧
    (∀ (c : Client) (u a ap r : Option String) (lim : Option Int),
      AsyncSLSMemoryClient.get_all_call c u a ap r lim =
        SLSMemoryClient.get_all_call c u a ap r lim) ∧
    (∀ (c : Client) (u a ap r : Option String),
      AsyncSLSMemoryClient.delete_all_call c u a ap r =
        SLSMemoryClient.delete_all_call c u a ap r) := by
  refine ⟨prepare_messages_facades_eq, fun c v u a ap r md doInfer am => ?_,
    fun b => ?_, fun b => ?_, fun b => ?_, fun b => ?_, fun b => ?_, fun b => ?_,
    fun b => ?_, fun p s => rfl, fun c mid => ⟨rfl, rfl, rfl⟩,
    fun c mid t md => rfl, fun c q u a ap r tk rk => rfl,
    fun c u a ap r lim => rfl, fun c u a ap r => rfl⟩
  · simp only [AsyncSLSMemoryClient.add_call, SLSMemoryClient.add_call,
      prepare_messages_facades_eq]
  · cases b with
    | none => rfl
    | some o => cases o <;> rfl
  · cases b with
    | none => rfl
    | some o => cases o <;> rfl
  · rcases b with - | ⟨- | rs⟩ <;> rfl
  · rcases b with - | ⟨- | rs⟩ <;> rfl
  · cases b <;> rfl
  · cases b with
    | none => rfl
    | some o => cases o <;> rfl
  · cases b with
    | none => rfl
    | some o => cases o <;> rfl

/-- C1: in both facades, create_memory_store first attempts the backend
create-store call and stops there when it succeeds; a first failure whose
text lacks the project-not-exist marker propagates at once with no project
creation; a first failure carrying the marker triggers exactly one
create_project call with the fixed auto-generated description, whose
failure propagates unmodified, and on its success exactly one retry of the
store creation whose outcome, success or failure, is surfaced unmodified. -/
theorem C1_store_provisioning :
    ∀ (b : Backend) (c : Client) (d ci : Option String) (eg : Bool)
      (st : String) (ttl : Int),
      (AsyncSLSMemoryClient.create_memory_store b c d ci eg st ttl =
        SLSMemoryClient.create_memory_store b c d ci eg st ttl) ∧
      ((autoProjectRequest c).description = "Auto-created by SLS Memory SDK") ∧
      (∀ resp, b.createStoreFirst = .ok resp →
        SLSMemoryClient.create_memory_store b c d ci eg st ttl =
          (.ok resp, [.createMemoryStore c.project (storeRequest c d ci eg st ttl)])) ∧
      (∀ e, b.createStoreFirst = .error e →
        strContains e.toStr "ProjectNotExist" = false →
        SLSMemoryClient.create_memory_store b c d ci eg st ttl =
          (.error e, [.createMemoryStore c.project (storeRequest c d ci eg st ttl)])) ∧
      (∀ e e2, b.createStoreFirst = .error e →
        strContains e.toStr "ProjectNotExist" = true →
        b.createProjectRes = .error e2 →
        SLSMemoryClient.create_memory_store b c d ci eg st ttl =
          (.error e2,
           [.createMemoryStore c.project (storeRequest c d ci eg st ttl),
            .createProject (autoProjectRequest c)])) ∧
      (∀ e r2, b.createStoreFirst = .error e →
        strContains e.toStr "ProjectNotExist" = true →
        b.createProjectRes = .ok r2 →
        SLSMemoryClient.create_memory_store b c d ci eg st ttl =
          (b.createStoreSecond,
           [.createMemoryStore c.project (storeRequest c d ci eg st ttl),
            .createProject (autoProjectRequest c),
            .createMemoryStore c.project (storeRequest c d ci eg st ttl)])) := by
  intro b c d ci eg st ttl
  refine ⟨rfl, rfl, fun resp h => ?_, fun e h hm => ?_,
    fun e e2 h hm hp => ?_, fun e r2 h hm hp => ?_⟩
  · simp [SLSMemoryClient.create_memory_store, h, storeRequest]
  · simp [SLSMemoryClient.create_memory_store, h, hm, storeRequest]
  · simp [SLSMemoryClient.create_memory_store, h, hm, hp,
      storeRequest, autoProjectRequest]
  · rcases hs : b.createStoreSecond with r3 | r3 <;>
      simp [SLSMemoryClient.create_memory_store, h, hm, hp, hs,
        storeRequest, autoProjectRequest]

/-- C1 witness: a backend whose first create-store call succeeds performs
exactly that one call. -/
theorem C1_store_provisioning_witness :
    SLSMemoryClient.create_memory_store
        { createStoreFirst := .ok { status_code := 200, headers := [] }
          createProjectRes := .ok { status_code := 200, headers := [] }
          createStoreSecond := .ok { status_code := 200, headers := [] } }
        { project := "p", memory_store := "s" } none none false "default" 7 =
      (.ok { status_code := 200, headers := [] },
       [.createMemoryStore "p"
          (storeRequest { project := "p", memory_store := "s" }
            none none false "default" 7)]) :=
  (C1_store_provisioning
    { createStoreFirst := .ok { status_code := 200, headers := [] }
      createProjectRes := .ok { status_code := 200, headers := [] }
      createStoreSecond := .ok { status_code := 200, headers := [] } }
    { project := "p", memory_store := "s" } none none false "default" 7).2.2.1
    { status_code := 200, headers := [] } rfl

end SlsMemory

